import Mathlib

/-!
Verification of the inventory-store and conversation-flow core of the
Telegram shop bot (src/bot.py, src/database.py, src/config.py).

The repository holds two persistence backends:

* a keyed JSON document handled directly by bot.py
  (cargar_inventario / guardar_inventario plus the conversation handlers), and
* a relational SQLite table handled by the Database class in database.py.

Both are embedded here shallowly.  Python ints and floats are modelled as
exact rational numbers (Rat); timestamps (datetime.now renderings) are
modelled as abstract Nat clock values supplied by the caller; the actual
file/database I/O is modelled as explicit state passing (every mutating
operation returns the new store, which the source persists before
returning).  Exception paths caused by I/O failure are outside the model.
-/

section Reducibilidad

/-! Batteries marks the Rat arithmetic irreducible; concrete witnesses and
counterexamples below evaluate store states by decide, which needs these
definitions to unfold. -/

set_option allowUnsafeReducibility true in
attribute [semireducible] Rat.mul Rat.add Rat.div Rat.inv Rat.sub Rat.neg

end Reducibilidad

/-- A product record as stored by bot.py's JSON document: the value of
`inventario[nombre]`, holding the keys written by the insert flow
(insertar_nombre / insertar_cantidad / insertar_precio / insertar_categoria):
`cantidad`, `cantidad_inicial`, `precio`, `categoria`, `fecha_creacion`.
(The redundant `nombre` key inside the value is dropped: it always equals
the dictionary key.) -/
structure ProductoJson where
  cantidad : Rat
  cantidad_inicial : Rat
  precio : Rat
  categoria : String
  fecha_creacion : Nat
deriving DecidableEq

/-- A row of the `productos` table created by Database.init_db in
database.py: nombre (UNIQUE), cantidad, cantidad_inicial, precio, categoria,
fecha_creacion, fecha_actualizacion.  The nombre column is the key of the
association list; the autoincrement id is the list position. -/
structure ProductoDb where
  cantidad : Rat
  cantidad_inicial : Rat
  precio : Rat
  categoria : String
  fecha_creacion : Nat
  fecha_actualizacion : Nat
deriving DecidableEq

/-- The JSON document: a Python dict, i.e. an insertion-ordered association
list with (at most) one entry per key. -/
abbrev InventarioJson := List (String × ProductoJson)

/-- The relational table: rows in rowid (insertion) order, keyed by the
UNIQUE nombre column. -/
abbrev Tabla := List (String × ProductoDb)

/-- First-match association lookup, the meaning of `d[k]` / `k in d` on a
Python dict and of `SELECT ... WHERE nombre = ?` on the UNIQUE-keyed table. -/
def busca {β : Type} : List (String × β) → String → Option β
  | [], _ => none
  | (m, r) :: rest, n => if m = n then some r else busca rest n

/-- Python dict assignment `d[k] = v`: if the key is present its value is
replaced in place (position kept), otherwise the entry is appended. -/
def dictSet {β : Type} : List (String × β) → String → β → List (String × β)
  | [], n, r => [(n, r)]
  | (m, q) :: rest, n, r => if m = n then (n, r) :: rest else (m, q) :: dictSet rest n r

/-- In-place mutation of one field of the record stored at a key, the meaning
of `d[k]['campo'] = v` (first matching entry; keys are unique in a dict). -/
def dictMapAt {β : Type} : List (String × β) → String → (β → β) → List (String × β)
  | [], _, _ => []
  | (m, r) :: rest, n, f => if m = n then (m, f r) :: rest else (m, r) :: dictMapAt rest n f

/-- Key removal: `del d[k]` on a dict (which holds at most one entry per key)
and `DELETE FROM productos WHERE nombre = ?` on the UNIQUE-keyed table both
keep exactly the entries whose key differs. -/
def dictDel {β : Type} (st : List (String × β)) (n : String) : List (String × β) :=
  st.filter (fun p => p.1 != n)

/-- Outcome of a store operation, abstracting the success/failure message
dictionaries returned by database.py and the reply/re-prompt behaviour of
bot.py. -/
inductive Resultado where
  | exito
  | duplicado
  | noExiste
  | sinCampos
deriving DecidableEq

/-! ### Rounding

Python's round(x, 2) on the money-like totals: round half to even at the
second decimal.  Floats are modelled as exact rationals. -/

/-- Round a rational to the nearest integer, ties to even (Python round). -/
def redondeoMedioPar (q : Rat) : Int :=
  if q - ⌊q⌋ < 1/2 then ⌊q⌋
  else if 1/2 < q - ⌊q⌋ then ⌊q⌋ + 1
  else if ⌊q⌋ % 2 = 0 then ⌊q⌋ else ⌊q⌋ + 1

/-- round(x, 2): round-half-even at two decimal places. -/
def redondeo2 (q : Rat) : Rat := (redondeoMedioPar (q * 100) : Rat) / 100

/-! ### The JSON backend (bot.py) -/

/-- bot.py cargar_inventario (lines 31-39): the backing file is either
absent, present but not valid JSON, or a well-formed stored mapping.
`json.load` succeeding (returning the mapping) or raising JSONDecodeError is
abstracted into the three constructors. -/
inductive Archivo where
  | ausente
  | invalido
  | valido (inv : InventarioJson)

/-- bot.py cargar_inventario: missing file yields {}, a JSONDecodeError
yields {}, otherwise the stored mapping is returned. -/
def cargar_inventario : Archivo → InventarioJson
  | .ausente => []
  | .invalido => []
  | .valido inv => inv

/-- Store-level effect of the completed insert flow (bot.py
insertar_categoria, lines 198-219): `inventario[nombre] = producto` followed
by guardar_inventario.  There is no duplicate-name check: an existing record
under the same name is silently overwritten.  The record carries
cantidad_inicial equal to the collected cantidad (insertar_cantidad,
line 174). -/
def json_insertar (st : InventarioJson) (n : String) (cant pre : Rat)
    (cat : String) (t : Nat) : InventarioJson × Resultado :=
  (dictSet st n ⟨cant, cant, pre, cat, t⟩, Resultado.exito)

/-- Store-level effect of the update flow (bot.py actualizar_seleccion,
lines 222-240, which re-prompts while the name is not a key of the
inventory, then actualizar_cantidad, lines 242-269, which performs
`inventario[nombre]['cantidad'] = nueva_cantidad` and saves). -/
def json_actualizar (st : InventarioJson) (n : String) (cant : Rat) :
    InventarioJson × Resultado :=
  match busca st n with
  | none => (st, Resultado.noExiste)
  | some _ => (dictMapAt st n (fun r => { r with cantidad := cant }), Resultado.exito)

/-- Store-level effect of the delete flow (bot.py borrar_producto,
lines 275-291): re-prompt when the name is absent, otherwise
`del inventario[nombre]` and save. -/
def json_borrar (st : InventarioJson) (n : String) : InventarioJson × Resultado :=
  match busca st n with
  | none => (st, Resultado.noExiste)
  | some _ => (dictDel st n, Resultado.exito)

/-- bot.py calcular_inventario_total (lines 46-53):
`sum(producto['precio'] * producto['cantidad'] for producto in inventario.values())`.
No rounding is applied to the returned number. -/
def calcular_inventario_total (st : InventarioJson) : Rat :=
  (st.map (fun p => p.2.precio * p.2.cantidad)).sum

/-- An entry of the list built by bot.py obtener_productos_bajo_stock:
the dict {'nombre': ..., 'cantidad': ..., 'limite': ...}. -/
structure ItemBajo where
  nombre : String
  cantidad : Rat
  limite : Rat
deriving DecidableEq

/-- bot.py obtener_productos_bajo_stock (lines 55-72): walk the inventory in
dictionary (insertion) order, keep every product with
`cantidad <= cantidad_inicial * 0.10`, reporting nombre, cantidad and the
limit `cantidad_inicial * 0.10`.  (The source's
`producto.get('cantidad_inicial', cantidad_actual)` default never fires for
records written by this bot, which always store the key; the model keeps the
field mandatory.)  No ordering is applied. -/
def obtener_productos_bajo_stock (st : InventarioJson) : List ItemBajo :=
  st.filterMap (fun p =>
    if p.2.cantidad ≤ p.2.cantidad_inicial * (10/100) then
      some ⟨p.1, p.2.cantidad, p.2.cantidad_inicial * (10/100)⟩
    else none)

/-- bot.py mostrar_inventario (lines 294-312): the sequence of
(nombre, producto) entries displayed, i.e. the dictionary iteration order;
an empty inventory just produces the "inventario vacío" message, not an
error. -/
def json_listar (st : InventarioJson) : List (String × ProductoJson) := st

/-! ### The relational backend (database.py Database) -/

/-- database.py insertar_producto (lines 40-84): INSERT a fresh row with
cantidad_inicial = cantidad and both timestamps set; the UNIQUE constraint
on nombre makes a duplicate insert raise IntegrityError, reported as a
failure with the state untouched. -/
def db_insertar (st : Tabla) (n : String) (cant pre : Rat) (cat : String)
    (t : Nat) : Tabla × Resultado :=
  match busca st n with
  | some _ => (st, Resultado.duplicado)
  | none => (st ++ [(n, ⟨cant, cant, pre, cat, t, t⟩)], Resultado.exito)

/-- SQL `UPDATE productos SET ... WHERE nombre = ?`: rewrite every row whose
nombre matches (at most one, by the UNIQUE constraint). -/
def tablaUpdate (st : Tabla) (n : String) (f : ProductoDb → ProductoDb) : Tabla :=
  st.map (fun p => if p.1 = n then (p.1, f p.2) else p)

/-- database.py actualizar_producto (lines 86-156): fail with NotFound when
the name is absent; otherwise update cantidad and/or precio according to
which optional arguments were provided, stamping fecha_actualizacion; with
neither argument provided, fail ("Debe proporcionar al menos cantidad o
precio").  No validation of the values takes place. -/
def db_actualizar (st : Tabla) (n : String) (cant pre : Option Rat) (t : Nat) :
    Tabla × Resultado :=
  match busca st n with
  | none => (st, Resultado.noExiste)
  | some _ =>
    match cant, pre with
    | some c, some p =>
        (tablaUpdate st n (fun r => { r with cantidad := c, precio := p, fecha_actualizacion := t }),
         Resultado.exito)
    | some c, none =>
        (tablaUpdate st n (fun r => { r with cantidad := c, fecha_actualizacion := t }),
         Resultado.exito)
    | none, some p =>
        (tablaUpdate st n (fun r => { r with precio := p, fecha_actualizacion := t }),
         Resultado.exito)
    | none, none => (st, Resultado.sinCampos)

/-- database.py borrar_producto (lines 158-193): fail with NotFound when the
name is absent, otherwise DELETE the row. -/
def db_borrar (st : Tabla) (n : String) : Tabla × Resultado :=
  match busca st n with
  | none => (st, Resultado.noExiste)
  | some _ => (dictDel st n, Resultado.exito)

/-- An entry of the result list of database.py obtener_productos_bajos:
nombre, cantidad, cantidad_inicial, precio, categoria plus the percentage
`round(cantidad / cantidad_inicial * 100, 2)` (0 when cantidad_inicial is
not positive). -/
structure ItemBajoDb where
  nombre : String
  cantidad : Rat
  cantidad_inicial : Rat
  precio : Rat
  categoria : String
  porcentaje : Rat
deriving DecidableEq

/-- The ORDER BY key `cantidad / cantidad_inicial` of
obtener_productos_bajos: SQLite division by zero yields NULL. -/
def claveRazon (r : ProductoDb) : Option Rat :=
  if r.cantidad_inicial = 0 then none else some (r.cantidad / r.cantidad_inicial)

/-- SQLite ascending comparison on the ORDER BY key: NULL sorts before every
number. -/
def claveLe (a b : Option Rat) : Prop :=
  match a, b with
  | none, _ => True
  | some _, none => False
  | some x, some y => x ≤ y

instance : DecidableRel claveLe := fun a b =>
  match a, b with
  | none, _ => isTrue trivial
  | some _, none => isFalse (fun h => h)
  | some x, some y => inferInstanceAs (Decidable (x ≤ y))

/-- Row comparison used to model the ORDER BY clause of
obtener_productos_bajos. -/
def filaLe (a b : String × ProductoDb) : Prop := claveLe (claveRazon a.2) (claveRazon b.2)

instance : DecidableRel filaLe := fun a b =>
  inferInstanceAs (Decidable (claveLe (claveRazon a.2) (claveRazon b.2)))

instance : IsTotal (String × ProductoDb) filaLe := by
  constructor
  intro a b
  unfold filaLe claveLe
  cases claveRazon a.2 <;> cases claveRazon b.2 <;> simp [le_total]

instance : IsTrans (String × ProductoDb) filaLe := by
  constructor
  intro a b c
  unfold filaLe claveLe
  cases claveRazon a.2 <;> cases claveRazon b.2 <;> cases claveRazon c.2 <;>
    simp <;> exact le_trans

/-- The result dictionary obtener_productos_bajos builds for one selected
row: the five selected columns plus
`porcentaje = round(cantidad / cantidad_inicial * 100, 2)` when
`cantidad_inicial > 0`, else 0. -/
def itemBajoDb (p : String × ProductoDb) : ItemBajoDb :=
  ⟨p.1, p.2.cantidad, p.2.cantidad_inicial, p.2.precio, p.2.categoria,
    if 0 < p.2.cantidad_inicial then redondeo2 (p.2.cantidad / p.2.cantidad_inicial * 100)
    else 0⟩

/-- database.py obtener_productos_bajos (lines 195-231):
`SELECT ... WHERE cantidad <= (cantidad_inicial * 0.1)
ORDER BY (cantidad / cantidad_inicial) ASC`, then each row is packaged with
its stock percentage. -/
def obtener_productos_bajos (st : Tabla) : List ItemBajoDb :=
  ((st.filter (fun p => decide (p.2.cantidad ≤ p.2.cantidad_inicial * (10/100)))).insertionSort
      filaLe).map itemBajoDb

/-- database.py calcular_costo_total (lines 233-272): the total
`round(sum(cantidad * precio), 2)` together with the row count.  (The
detalles list, glue for display, is not modelled; summation order over the
rows does not affect the exact rational sum.) -/
def calcular_costo_total (st : Tabla) : Rat × Nat :=
  (redondeo2 ((st.map (fun p => p.2.cantidad * p.2.precio)).sum), st.length)

/-- Name comparison for `ORDER BY nombre`. -/
def nombreLe (a b : String × ProductoDb) : Prop := a.1 ≤ b.1

instance : DecidableRel nombreLe := fun a b =>
  inferInstanceAs (Decidable (a.1 ≤ b.1))

instance : IsTotal (String × ProductoDb) nombreLe := ⟨fun a b => le_total a.1 b.1⟩

instance : IsTrans (String × ProductoDb) nombreLe := ⟨fun _ _ _ h h' => le_trans h h'⟩

/-- The view of a row returned by listar_productos (fecha columns are not
selected). -/
structure ProductoVista where
  nombre : String
  cantidad : Rat
  cantidad_inicial : Rat
  precio : Rat
  categoria : String
deriving DecidableEq

/-- The five selected columns of one row of listar_productos. -/
def vistaFila (p : String × ProductoDb) : ProductoVista :=
  ⟨p.1, p.2.cantidad, p.2.cantidad_inicial, p.2.precio, p.2.categoria⟩

/-- database.py listar_productos (lines 274-306):
`SELECT nombre, cantidad, cantidad_inicial, precio, categoria FROM productos
ORDER BY nombre`; an empty table yields the empty list, not an error. -/
def listar_productos (st : Tabla) : List ProductoVista :=
  (st.insertionSort nombreLe).map vistaFila

/-! ### Python number parsing (bot.py input validation) -/

/-- Strip leading and trailing whitespace, as Python's int()/float() do
before parsing. -/
def limpiar (cs : List Char) : List Char :=
  ((cs.dropWhile Char.isWhitespace).reverse.dropWhile Char.isWhitespace).reverse

/-- Decimal digit run to a natural number. -/
def digitosANat (cs : List Char) : Nat :=
  cs.foldl (fun acc c => acc * 10 + (c.toNat - '0'.toNat)) 0

/-- Python `int(text)`, the parser of insertar_cantidad and
actualizar_cantidad: optional surrounding whitespace, an optional sign, then
one or more decimal digits.  (Underscore digit grouping and non-ASCII digits
are not modelled.)  Anything else raises ValueError, i.e. yields none; in
particular a numeral with a fractional part such as "3.5" is rejected. -/
def pyInt (s : String) : Option Int :=
  let t := limpiar s.toList
  let signo : Option (Bool × List Char) :=
    match t with
    | '-' :: rest => some (true, rest)
    | '+' :: rest => some (false, rest)
    | rest => some (false, rest)
  match signo with
  | some (neg, ds) =>
    if ds ≠ [] ∧ ds.all Char.isDigit then
      some (if neg then -(digitosANat ds : Int) else (digitosANat ds : Int))
    else none
  | none => none

/-- Python `float(text)`, the parser of insertar_precio: optional
whitespace and sign, then either `digits`, `digits.digits`, `digits.` or
`.digits`.  (Exponents, inf and nan are not modelled.) -/
def pyFloat (s : String) : Option Rat :=
  let t := limpiar s.toList
  let (neg, ds) : Bool × List Char :=
    match t with
    | '-' :: rest => (true, rest)
    | '+' :: rest => (false, rest)
    | rest => (false, rest)
  let entero := ds.takeWhile Char.isDigit
  let resto := ds.dropWhile Char.isDigit
  let valor : Option Rat :=
    match resto with
    | [] => if entero ≠ [] then some (digitosANat entero : Rat) else none
    | '.' :: frac =>
      if frac.all Char.isDigit ∧ (entero ≠ [] ∨ frac ≠ []) then
        some ((digitosANat entero : Rat) +
          (digitosANat frac : Rat) / ((10 : Rat) ^ frac.length))
      else none
    | _ => none
  valor.map (fun v => if neg then -v else v)

/-! ### The conversation flow (bot.py handlers) -/

/-- The ConversationHandler states MENU .. BORRAR_SELECCION
(bot.py lines 23-25). -/
inductive Estado where
  | menu
  | insertarNombre
  | insertarCantidad
  | insertarPrecio
  | insertarCategoria
  | actualizarSeleccion
  | actualizarCantidad
  | borrarSeleccion
deriving DecidableEq

/-- The draft accumulated in context.user_data: the nuevo_producto fields
collected so far plus the producto_actualizar selection. -/
structure Borrador where
  nombre : Option String
  cantidad : Option Int
  cantidad_inicial : Option Int
  precio : Option Rat
  producto_actualizar : Option String
deriving DecidableEq

/-- The cleared draft (context.user_data.clear()). -/
def borradorVacio : Borrador := ⟨none, none, none, none, none⟩

/-- Tags for the replies a handler sends (the exact markup is transport
glue). -/
inductive Mensaje where
  | pideCantidad
  | pidePrecio
  | pideCategoria
  | errNumero
  | errPrecio
  | exitoActualizado
  | alertaStock
  | canceladoAck
  | menuInicio
deriving DecidableEq

/-- What a step handler returns: the next conversation state, the draft, the
persisted inventory and the replies sent. -/
structure PasoSalida where
  estado : Estado
  datos : Borrador
  inv : InventarioJson
  mensajes : List Mensaje
deriving DecidableEq

/-- bot.py insertar_cantidad (lines 167-179): parse the text with int();
a negative value raises ValueError like a parse failure; on failure reply
with the error prompt and stay in INSERTAR_CANTIDAD; on success record
cantidad and cantidad_inicial in the draft and advance to INSERTAR_PRECIO.
The inventory is not touched in either case. -/
def insertar_cantidad (texto : String) (datos : Borrador) (inv : InventarioJson) :
    PasoSalida :=
  match pyInt texto with
  | some k =>
    if k < 0 then ⟨Estado.insertarCantidad, datos, inv, [Mensaje.errNumero]⟩
    else
      ⟨Estado.insertarPrecio,
        { datos with cantidad := some k, cantidad_inicial := some k }, inv,
        [Mensaje.pidePrecio]⟩
  | none => ⟨Estado.insertarCantidad, datos, inv, [Mensaje.errNumero]⟩

/-- bot.py insertar_precio (lines 181-196): parse with float(); negative
values raise ValueError; on failure re-prompt and stay in INSERTAR_PRECIO;
on success record precio and advance to INSERTAR_CATEGORIA. -/
def insertar_precio (texto : String) (datos : Borrador) (inv : InventarioJson) :
    PasoSalida :=
  match pyFloat texto with
  | some v =>
    if v < 0 then ⟨Estado.insertarPrecio, datos, inv, [Mensaje.errPrecio]⟩
    else
      ⟨Estado.insertarCategoria, { datos with precio := some v }, inv,
        [Mensaje.pideCategoria]⟩
  | none => ⟨Estado.insertarPrecio, datos, inv, [Mensaje.errPrecio]⟩

/-- bot.py actualizar_cantidad (lines 242-272): `n` is the
producto_actualizar selection stored by actualizar_seleccion (always present
when this state is reached).  Parse with int(); negative raises; on failure
re-prompt and stay.  On success set `inventario[n]['cantidad']`, save,
append the low-stock alert when the new quantity is at or below 10% of
cantidad_inicial, clear the draft and return to MENU. -/
def actualizar_cantidad (texto : String) (n : String) (datos : Borrador)
    (inv : InventarioJson) : PasoSalida :=
  match pyInt texto with
  | some k =>
    if k < 0 then ⟨Estado.actualizarCantidad, datos, inv, [Mensaje.errNumero]⟩
    else
      let inv2 := dictMapAt inv n (fun r => { r with cantidad := (k : Rat) })
      let ini : Rat :=
        match busca inv2 n with
        | some r => r.cantidad_inicial
        | none => (k : Rat)
      let msgs :=
        if (k : Rat) ≤ ini * (10/100) then
          [Mensaje.exitoActualizado, Mensaje.alertaStock]
        else [Mensaje.exitoActualizado]
      ⟨Estado.menu, borradorVacio, inv2, msgs⟩
  | none => ⟨Estado.actualizarCantidad, datos, inv, [Mensaje.errNumero]⟩

/-- bot.py cancelar (lines 349-356), installed as the /cancelar fallback of
the ConversationHandler for every state (line 378): acknowledge the
cancellation, clear context.user_data, and re-enter the menu via start().
The inventory file is never read or written. -/
def cancelar (e : Estado) (datos : Borrador) (inv : InventarioJson) : PasoSalida :=
  ⟨Estado.menu, borradorVacio, inv, [Mensaje.canceladoAck, Mensaje.menuInicio]⟩

/-! ### Common operation traces over both backends (for the backend
comparison of section 6 of the spec) -/

/-- One abstract mutating request, as issued by the conversation flow:
a completed insert (name, quantity, price, category, with the clock value
used for the timestamps), a quantity update, or a delete. -/
inductive Op where
  | inserta (n : String) (cant pre : Rat) (cat : String) (t : Nat)
  | actualiza (n : String) (cant : Rat) (t : Nat)
  | borra (n : String)

/-- The JSON backend's handling of one request (the update flow only ever
writes cantidad and stamps nothing). -/
def jsonPaso (st : InventarioJson) : Op → InventarioJson × Resultado
  | Op.inserta n c p cat t => json_insertar st n c p cat t
  | Op.actualiza n c _ => json_actualizar st n c
  | Op.borra n => json_borrar st n

/-- The relational backend's handling of one request (a quantity update is
actualizar_producto with cantidad provided and precio omitted). -/
def dbPaso (st : Tabla) : Op → Tabla × Resultado
  | Op.inserta n c p cat t => db_insertar st n c p cat t
  | Op.actualiza n c t => db_actualizar st n (some c) none t
  | Op.borra n => db_borrar st n

/-- Run a request sequence against the JSON backend, collecting the outcome
of every request. -/
def jsonCorre : InventarioJson → List Op → InventarioJson × List Resultado
  | st, [] => (st, [])
  | st, op :: ops =>
    let paso := jsonPaso st op
    let resto := jsonCorre paso.1 ops
    (resto.1, paso.2 :: resto.2)

/-- Run a request sequence against the relational backend. -/
def dbCorre : Tabla → List Op → Tabla × List Resultado
  | st, [] => (st, [])
  | st, op :: ops =>
    let paso := dbPaso st op
    let resto := dbCorre paso.1 ops
    (resto.1, paso.2 :: resto.2)

/-- A request is admissible on a state when it is not an insert at a name
already present. -/
def opAdmisible (sd : Tabla) : Op → Bool
  | Op.inserta n _ _ _ _ => (busca sd n).isNone
  | _ => true

/-- A trace is duplicate-free when no insert uses a name present at the
moment it executes (checked against the evolving relational state). -/
def sinDuplicados : Tabla → List Op → Bool
  | _, [] => true
  | st, op :: ops => opAdmisible st op && sinDuplicados (dbPaso st op).1 ops

/-- The backend-independent content of a JSON record (the fields both
backends maintain; the JSON document stores no fecha_actualizacion). -/
def vistaJson (r : ProductoJson) : Rat × Rat × Rat × String :=
  (r.cantidad, r.cantidad_inicial, r.precio, r.categoria)

/-- The backend-independent content of a table row. -/
def vistaDb (r : ProductoDb) : Rat × Rat × Rat × String :=
  (r.cantidad, r.cantidad_inicial, r.precio, r.categoria)

/-- The two stores hold the same record content under every name. -/
def corresponde (sj : InventarioJson) (sd : Tabla) : Prop :=
  ∀ n, (busca sj n).map vistaJson = (busca sd n).map vistaDb

/-! ### Lookup lemmas for the dictionary primitives -/

theorem busca_dictSet {β : Type} (st : List (String × β)) (n m : String) (r : β) :
    busca (dictSet st n r) m = if n = m then some r else busca st m := by
  induction st with
  | nil => simp [busca, dictSet]
  | cons hd tl ih =>
    obtain ⟨k, q⟩ := hd
    show busca (if k = n then (n, r) :: tl else (k, q) :: dictSet tl n r) m = _
    by_cases hkn : k = n
    · rw [if_pos hkn]
      by_cases hnm : n = m
      · simp [busca, hnm]
      · have hkm : ¬ k = m := fun h => hnm (hkn.symm.trans h)
        simp [busca, hnm, hkm]
    · rw [if_neg hkn]
      by_cases hkm : k = m
      · have hnm : ¬ n = m := fun h => hkn (hkm.trans h.symm)
        simp [busca, hkm, hnm]
      · simp [busca, hkm, ih]

theorem busca_dictMapAt {β : Type} (st : List (String × β)) (n m : String)
    (f : β → β) :
    busca (dictMapAt st n f) m =
      if n = m then (busca st m).map f else busca st m := by
  induction st with
  | nil => simp [busca, dictMapAt]
  | cons hd tl ih =>
    obtain ⟨k, q⟩ := hd
    show busca (if k = n then (k, f q) :: tl else (k, q) :: dictMapAt tl n f) m = _
    by_cases hkn : k = n
    · rw [if_pos hkn]
      by_cases hnm : n = m
      · have hkm : k = m := hkn.trans hnm
        simp [busca, hnm, hkm]
      · have hkm : ¬ k = m := fun h => hnm (hkn.symm.trans h)
        simp [busca, hnm, hkm]
    · rw [if_neg hkn]
      by_cases hkm : k = m
      · have hnm : ¬ n = m := fun h => hkn (hkm.trans h.symm)
        simp [busca, hkm, hnm]
      · simp [busca, hkm, ih]

theorem busca_tablaUpdate (st : Tabla) (n m : String) (f : ProductoDb → ProductoDb) :
    busca (tablaUpdate st n f) m =
      if n = m then (busca st m).map f else busca st m := by
  induction st with
  | nil => simp [busca, tablaUpdate]
  | cons hd tl ih =>
    obtain ⟨k, q⟩ := hd
    show busca ((if k = n then (k, f q) else (k, q)) :: tablaUpdate tl n f) m = _
    by_cases hkn : k = n
    · rw [if_pos hkn]
      by_cases hnm : n = m
      · have hkm : k = m := hkn.trans hnm
        simp [busca, hnm, hkm]
      · have hkm : ¬ k = m := fun h => hnm (hkn.symm.trans h)
        simp [busca, hnm, hkm, ih]
    · rw [if_neg hkn]
      by_cases hkm : k = m
      · have hnm : ¬ n = m := fun h => hkn (hkm.trans h.symm)
        simp [busca, hkm, hnm]
      · simp [busca, hkm, ih]

theorem dictDel_cons {β : Type} (k : String) (q : β) (tl : List (String × β))
    (n : String) :
    dictDel ((k, q) :: tl) n =
      if k = n then dictDel tl n else (k, q) :: dictDel tl n := by
  by_cases hkn : k = n <;> simp [dictDel, List.filter_cons, hkn]

theorem busca_dictDel {β : Type} (st : List (String × β)) (n m : String) :
    busca (dictDel st n) m = if n = m then none else busca st m := by
  induction st with
  | nil => simp [busca, dictDel]
  | cons hd tl ih =>
    obtain ⟨k, q⟩ := hd
    rw [dictDel_cons]
    by_cases hkn : k = n
    · rw [if_pos hkn, ih]
      by_cases hnm : n = m
      · simp [hnm]
      · have hkm : ¬ k = m := fun h => hnm (hkn.symm.trans h)
        simp [busca, hnm, hkm]
    · rw [if_neg hkn]
      by_cases hkm : k = m
      · have hnm : ¬ n = m := fun h => hkn (hkm.trans h.symm)
        simp [busca, hkm, hnm]
      · simp [busca, hkm, ih]

theorem busca_append {β : Type} (st : List (String × β)) (n m : String) (r : β) :
    busca (st ++ [(n, r)]) m =
      (match busca st m with
       | some x => some x
       | none => if n = m then some r else none) := by
  induction st with
  | nil => simp [busca]
  | cons hd tl ih =>
    obtain ⟨k, q⟩ := hd
    by_cases hkm : k = m <;> simp [busca, hkm, ih]

/-! ### Simulation of the two backends along a duplicate-free trace -/

theorem pasoCorresponde (sj : InventarioJson) (sd : Tabla) (op : Op)
    (h : corresponde sj sd) (hop : opAdmisible sd op = true) :
    (jsonPaso sj op).2 = (dbPaso sd op).2 ∧
      corresponde (jsonPaso sj op).1 (dbPaso sd op).1 := by
  cases op with
  | inserta n c p cat t =>
    have hsd : busca sd n = none := Option.isNone_iff_eq_none.mp hop
    have hsj : busca sj n = none := by
      have h2 := h n
      rw [hsd] at h2
      cases hb : busca sj n
      · rfl
      · rw [hb] at h2; simp at h2
    refine ⟨by simp [jsonPaso, dbPaso, json_insertar, db_insertar, hsd], ?_⟩
    intro m
    simp only [jsonPaso, dbPaso, json_insertar, db_insertar, hsd]
    rw [busca_dictSet, busca_append]
    by_cases hnm : n = m
    · have hsdm : busca sd m = none := hnm ▸ hsd
      rw [if_pos hnm, hsdm]
      simp [hnm, vistaJson, vistaDb]
    · rw [if_neg hnm]
      have h2 := h m
      cases hb : busca sd m with
      | none =>
        rw [hb] at h2
        simpa [hnm] using h2
      | some x =>
        rw [hb] at h2
        simpa using h2
  | actualiza n c t =>
    have h2 := h n
    cases hb : busca sd n with
    | none =>
      have hsj : busca sj n = none := by
        rw [hb] at h2
        cases hc : busca sj n
        · rfl
        · rw [hc] at h2; simp at h2
      exact ⟨by simp [jsonPaso, dbPaso, json_actualizar, db_actualizar, hb, hsj],
        by simpa [jsonPaso, dbPaso, json_actualizar, db_actualizar, hb, hsj] using h⟩
    | some x =>
      have hsj : ∃ y, busca sj n = some y := by
        rw [hb] at h2
        cases hc : busca sj n
        · rw [hc] at h2; simp at h2
        · exact ⟨_, rfl⟩
      obtain ⟨y, hy⟩ := hsj
      constructor
      · simp [jsonPaso, dbPaso, json_actualizar, db_actualizar, hb, hy]
      · intro m
        simp only [jsonPaso, dbPaso, json_actualizar, db_actualizar, hb, hy]
        rw [busca_dictMapAt, busca_tablaUpdate]
        by_cases hnm : n = m
        · rw [if_pos hnm, if_pos hnm]
          have h2m := h m
          cases hcj : busca sj m with
          | none =>
            rw [hcj] at h2m
            cases hcd : busca sd m with
            | none => simp
            | some z => rw [hcd] at h2m; simp at h2m
          | some yj =>
            rw [hcj] at h2m
            cases hcd : busca sd m with
            | none => rw [hcd] at h2m; simp at h2m
            | some z =>
              rw [hcd] at h2m
              simp only [Option.map_some', Option.some.injEq, vistaJson, vistaDb,
                Prod.mk.injEq] at h2m
              obtain ⟨hc1, hc2, hc3, hc4⟩ := h2m
              simp [vistaJson, vistaDb, hc2, hc3, hc4]
        · rw [if_neg hnm, if_neg hnm]
          exact h m
  | borra n =>
    have h2 := h n
    cases hb : busca sd n with
    | none =>
      have hsj : busca sj n = none := by
        rw [hb] at h2
        cases hc : busca sj n
        · rfl
        · rw [hc] at h2; simp at h2
      exact ⟨by simp [jsonPaso, dbPaso, json_borrar, db_borrar, hb, hsj],
        by simpa [jsonPaso, dbPaso, json_borrar, db_borrar, hb, hsj] using h⟩
    | some x =>
      have hsj : ∃ y, busca sj n = some y := by
        rw [hb] at h2
        cases hc : busca sj n
        · rw [hc] at h2; simp at h2
        · exact ⟨_, rfl⟩
      obtain ⟨y, hy⟩ := hsj
      constructor
      · simp [jsonPaso, dbPaso, json_borrar, db_borrar, hb, hy]
      · intro m
        simp only [jsonPaso, dbPaso, json_borrar, db_borrar, hb, hy]
        rw [busca_dictDel, busca_dictDel]
        by_cases hnm : n = m
        · rw [if_pos hnm, if_pos hnm]; simp
        · rw [if_neg hnm, if_neg hnm]
          exact h m

theorem correCorresponde (ops : List Op) :
    ∀ (sj : InventarioJson) (sd : Tabla), corresponde sj sd →
      sinDuplicados sd ops = true →
      (jsonCorre sj ops).2 = (dbCorre sd ops).2 ∧
        corresponde (jsonCorre sj ops).1 (dbCorre sd ops).1 := by
  induction ops with
  | nil => exact fun sj sd h _ => ⟨rfl, h⟩
  | cons op ops ih =>
    intro sj sd h hdup
    rw [sinDuplicados, Bool.and_eq_true] at hdup
    have paso := pasoCorresponde sj sd op h hdup.1
    have resto := ih (jsonPaso sj op).1 (dbPaso sd op).1 paso.2 hdup.2
    exact ⟨by simp [jsonCorre, dbCorre, paso.1, resto.1],
      by simpa [jsonCorre, dbCorre] using resto.2⟩

/-! ### The low-stock ratio of the specification -/

/-- The ratio `quantity / initialQuantity` of the low-stock ordering as the
specification words it, with the explicit edge-case policy: 0 when
`initialQuantity == 0`. -/
def razonSpec (e : ItemBajoDb) : Rat :=
  if e.cantidad_inicial = 0 then 0 else e.cantidad / e.cantidad_inicial

/-- The same specification ratio read off a stored JSON record, used to
check the order in which obtener_productos_bajo_stock reports products. -/
def razonSpecJson (st : InventarioJson) (n : String) : Rat :=
  match busca st n with
  | some r => if r.cantidad_inicial = 0 then 0 else r.cantidad / r.cantidad_inicial
  | none => 0

/-! ### Projection lemmas: cantidad_inicial under updates -/

/-- The (nombre, cantidad_inicial) column of the JSON document. -/
def inicialJson (st : InventarioJson) : List (String × Rat) :=
  st.map (fun p => (p.1, p.2.cantidad_inicial))

/-- The (nombre, cantidad_inicial) column of the table. -/
def inicialDb (st : Tabla) : List (String × Rat) :=
  st.map (fun p => (p.1, p.2.cantidad_inicial))

theorem inicialJson_dictMapAt (st : InventarioJson) (n : String)
    (f : ProductoJson → ProductoJson)
    (hf : ∀ r, (f r).cantidad_inicial = r.cantidad_inicial) :
    inicialJson (dictMapAt st n f) = inicialJson st := by
  induction st with
  | nil => rfl
  | cons hd tl ih =>
    obtain ⟨k, q⟩ := hd
    show inicialJson (if k = n then (k, f q) :: tl else (k, q) :: dictMapAt tl n f) = _
    by_cases hkn : k = n
    · rw [if_pos hkn]
      simp [inicialJson, hf]
    · rw [if_neg hkn]
      simp only [inicialJson, List.map_cons] at ih ⊢
      rw [ih]

theorem inicialDb_tablaUpdate (st : Tabla) (n : String)
    (f : ProductoDb → ProductoDb)
    (hf : ∀ r, (f r).cantidad_inicial = r.cantidad_inicial) :
    inicialDb (tablaUpdate st n f) = inicialDb st := by
  induction st with
  | nil => rfl
  | cons hd tl ih =>
    obtain ⟨k, q⟩ := hd
    show inicialDb ((if k = n then (k, f q) else (k, q)) :: tablaUpdate tl n f) = _
    simp only [inicialDb, List.map_cons] at ih ⊢
    rw [ih]
    by_cases hkn : k = n
    · rw [if_pos hkn]
      simp [hf]
    · rw [if_neg hkn]

theorem inicialJson_actualizar (st : InventarioJson) (n : String) (c : Rat) :
    inicialJson (json_actualizar st n c).1 = inicialJson st := by
  unfold json_actualizar
  cases busca st n
  · rfl
  · exact inicialJson_dictMapAt st n _ (fun r => rfl)

/-- Any sequence of update-flow quantity writes against the JSON document. -/
def json_actualizaLista : InventarioJson → List (String × Rat) → InventarioJson
  | st, [] => st
  | st, (n, c) :: us => json_actualizaLista (json_actualizar st n c).1 us

/-- Any sequence of actualizar_producto calls (each with its optional
cantidad, optional precio and clock value) against the table. -/
def db_actualizaLista : Tabla → List (String × Option Rat × Option Rat × Nat) → Tabla
  | st, [] => st
  | st, (n, c, p, t) :: us => db_actualizaLista (db_actualizar st n c p t).1 us

theorem inicialDb_actualizar (st : Tabla) (n : String) (c p : Option Rat) (t : Nat) :
    inicialDb (db_actualizar st n c p t).1 = inicialDb st := by
  unfold db_actualizar
  cases busca st n with
  | none => rfl
  | some v =>
    cases c with
    | some cv =>
      cases p with
      | some pv =>
        exact inicialDb_tablaUpdate st n
          (fun r => { r with cantidad := cv, precio := pv, fecha_actualizacion := t })
          (fun r => rfl)
      | none =>
        exact inicialDb_tablaUpdate st n
          (fun r => { r with cantidad := cv, fecha_actualizacion := t })
          (fun r => rfl)
    | none =>
      cases p with
      | some pv =>
        exact inicialDb_tablaUpdate st n
          (fun r => { r with precio := pv, fecha_actualizacion := t })
          (fun r => rfl)
      | none => rfl

theorem inicialJson_actualizaLista (us : List (String × Rat)) :
    ∀ st : InventarioJson, inicialJson (json_actualizaLista st us) = inicialJson st := by
  induction us with
  | nil => exact fun st => rfl
  | cons u us ih =>
    intro st
    obtain ⟨n, c⟩ := u
    rw [json_actualizaLista, ih, inicialJson_actualizar]

theorem inicialDb_actualizaLista (us : List (String × Option Rat × Option Rat × Nat)) :
    ∀ st : Tabla, inicialDb (db_actualizaLista st us) = inicialDb st := by
  induction us with
  | nil => exact fun st => rfl
  | cons u us ih =>
    intro st
    obtain ⟨n, c, p, t⟩ := u
    rw [db_actualizaLista, ih, inicialDb_actualizar]

/-! ### Sum and rounding lemmas for the totals -/

theorem dictSet_ausente {β : Type} (st : List (String × β)) (n : String) (r : β)
    (h : busca st n = none) : dictSet st n r = st ++ [(n, r)] := by
  induction st with
  | nil => rfl
  | cons hd tl ih =>
    obtain ⟨k, q⟩ := hd
    rw [busca] at h
    by_cases hkn : k = n
    · rw [if_pos hkn] at h; exact absurd h (by simp)
    · rw [if_neg hkn] at h
      show (if k = n then (n, r) :: tl else (k, q) :: dictSet tl n r) = _
      rw [if_neg hkn, ih h]
      rfl

theorem redondeoMedioPar_add_par (q : Rat) (k : Int) (hk : k % 2 = 0) :
    redondeoMedioPar (q + k) = redondeoMedioPar q + k := by
  have hfl : ⌊q + (k:Rat)⌋ = ⌊q⌋ + k := Int.floor_add_int q k
  have hfr : q + (k:Rat) - ((⌊q⌋ + k : Int) : Rat) = q - ⌊q⌋ := by push_cast; ring
  simp only [redondeoMedioPar, hfl, hfr]
  by_cases h1 : q - (⌊q⌋:Rat) < 1/2
  · rw [if_pos h1, if_pos h1]
  · rw [if_neg h1, if_neg h1]
    by_cases h2 : (1:Rat)/2 < q - ⌊q⌋
    · rw [if_pos h2, if_pos h2]; ring
    · rw [if_neg h2, if_neg h2]
      by_cases h3 : ⌊q⌋ % 2 = 0
      · have h4 : (⌊q⌋ + k) % 2 = 0 := by omega
        rw [if_pos h4, if_pos h3]
      · have h4 : ¬ (⌊q⌋ + k) % 2 = 0 := by omega
        rw [if_neg h4, if_neg h3]; ring

theorem redondeo2_add_siete_cincuenta (x : Rat) :
    redondeo2 (x + 15/2) = redondeo2 x + 15/2 := by
  unfold redondeo2
  have h : (x + 15/2) * 100 = x * 100 + ((750 : Int) : Rat) := by push_cast; ring
  rw [h, redondeoMedioPar_add_par (x * 100) 750 (by decide)]
  push_cast
  ring

/-! ## The claims -/

/-- Claim C1, counterexample: the claim requires lowStock() to be ordered
ascending by the ratio quantity/initialQuantity, but bot.py's
obtener_productos_bajo_stock walks the dictionary in insertion order: on a
store holding "b" (cantidad 1 of 10, ratio 1/10) before "c" (cantidad 0 of
10, ratio 0) it reports the ratios in the order [1/10, 0], which is not
ascending. -/
theorem c1_contraejemplo :
    (obtener_productos_bajo_stock
        [("b", ⟨1, 10, 1, "g", 0⟩), ("c", ⟨0, 10, 1, "g", 0⟩)]).map
      (fun e => razonSpecJson
        [("b", ⟨1, 10, 1, "g", 0⟩), ("c", ⟨0, 10, 1, "g", 0⟩)] e.nombre) =
      [1/10, 0] ∧
    ¬ ((1:Rat)/10 ≤ 0) := by
  exact ⟨by decide, by decide⟩

/-- Claim C1, amended: both backends select exactly the products with
quantity at most 0.10 times initialQuantity (so a product with
initialQuantity 0 is selected exactly when its quantity is at most 0); the
relational backend additionally returns them ordered ascending by the
specification ratio (0 when initialQuantity is 0) whenever all stored
quantities are nonnegative, while the JSON backend returns them in store
order. -/
theorem c1_bajo_stock_enmendado :
    (∀ (st : Tabla) (e : ItemBajoDb),
        e ∈ obtener_productos_bajos st ↔
          ∃ p, p ∈ st ∧ p.2.cantidad ≤ p.2.cantidad_inicial * (10/100) ∧
            e = itemBajoDb p) ∧
    (∀ st : Tabla, (∀ p ∈ st, 0 ≤ p.2.cantidad ∧ 0 ≤ p.2.cantidad_inicial) →
        List.Sorted (fun a b => razonSpec a ≤ razonSpec b)
          (obtener_productos_bajos st)) ∧
    (∀ p : String × ProductoDb, p.2.cantidad_inicial = 0 →
        (p.2.cantidad ≤ p.2.cantidad_inicial * (10/100) ↔ p.2.cantidad ≤ 0)) ∧
    (∀ (st : InventarioJson) (e : ItemBajo),
        e ∈ obtener_productos_bajo_stock st ↔
          ∃ p, p ∈ st ∧ p.2.cantidad ≤ p.2.cantidad_inicial * (10/100) ∧
            e = ⟨p.1, p.2.cantidad, p.2.cantidad_inicial * (10/100)⟩) := by
  refine ⟨?_, ?_, ?_, ?_⟩
  · intro st e
    unfold obtener_productos_bajos
    constructor
    · intro he
      obtain ⟨a, ha, hae⟩ := List.mem_map.mp he
      simp only [List.mem_insertionSort] at ha
      simp only [List.mem_filter, decide_eq_true_eq] at ha
      exact ⟨a, ha.1, ha.2, hae.symm⟩
    · rintro ⟨p, hp, hcond, rfl⟩
      refine List.mem_map.mpr ⟨p, ?_, rfl⟩
      simp only [List.mem_insertionSort, List.mem_filter, decide_eq_true_eq]
      exact ⟨hp, hcond⟩
  · intro st hpos
    unfold obtener_productos_bajos
    refine List.Pairwise.map itemBajoDb (fun a b h => h) ?_
    refine (List.sorted_insertionSort filaLe _).imp_of_mem ?_
    intro a b ha hb hab
    simp only [List.mem_insertionSort] at ha hb
    have hamem : a ∈ st := (List.mem_filter.mp ha).1
    have hbmem : b ∈ st := (List.mem_filter.mp hb).1
    have hacond : a.2.cantidad ≤ a.2.cantidad_inicial * (10/100) :=
      of_decide_eq_true (List.mem_filter.mp ha).2
    obtain ⟨hca, hia⟩ := hpos a hamem
    obtain ⟨hcb, hib⟩ := hpos b hbmem
    show razonSpec (itemBajoDb a) ≤ razonSpec (itemBajoDb b)
    have hra : razonSpec (itemBajoDb a) =
        if a.2.cantidad_inicial = 0 then 0
        else a.2.cantidad / a.2.cantidad_inicial := rfl
    have hrb : razonSpec (itemBajoDb b) =
        if b.2.cantidad_inicial = 0 then 0
        else b.2.cantidad / b.2.cantidad_inicial := rfl
    rw [hra, hrb]
    by_cases hA : a.2.cantidad_inicial = 0
    · rw [if_pos hA]
      by_cases hB : b.2.cantidad_inicial = 0
      · rw [if_pos hB]
      · rw [if_neg hB]
        have hBpos : 0 < b.2.cantidad_inicial := lt_of_le_of_ne hib (Ne.symm hB)
        exact div_nonneg hcb (le_of_lt hBpos)
    · by_cases hB : b.2.cantidad_inicial = 0
      · exfalso
        have hle : claveLe (claveRazon a.2) (claveRazon b.2) := hab
        unfold claveRazon at hle
        rw [if_neg hA, if_pos hB] at hle
        exact hle
      · rw [if_neg hA, if_neg hB]
        have hle : claveLe (claveRazon a.2) (claveRazon b.2) := hab
        unfold claveRazon at hle
        rw [if_neg hA, if_neg hB] at hle
        exact hle
  · intro p h
    rw [h]
    simp
  · intro st e
    unfold obtener_productos_bajo_stock
    rw [List.mem_filterMap]
    constructor
    · rintro ⟨a, ha, hae⟩
      by_cases hc : a.2.cantidad ≤ a.2.cantidad_inicial * (10/100)
      · rw [if_pos hc] at hae
        exact ⟨a, ha, hc, (Option.some.inj hae).symm⟩
      · rw [if_neg hc] at hae
        cases hae
    · rintro ⟨p, hp, hcond, rfl⟩
      exact ⟨p, hp, by rw [if_pos hcond]⟩

/-- Claim C1, witness: on a concrete table holding "b" (1 of 10) and "c"
(0 of 10) the relational low-stock report is ordered ascending by the
specification ratio. -/
theorem c1_testigo :
    List.Sorted (fun a b => razonSpec a ≤ razonSpec b)
      (obtener_productos_bajos
        [("b", ⟨1, 10, 1, "g", 0, 0⟩), ("c", ⟨0, 10, 1, "g", 0, 0⟩)]) :=
  c1_bajo_stock_enmendado.2.1 _ (by decide)

/-- Claim C2, counterexample: the two backends do not expose identical query
semantics.  On the request sequence that inserts "a" and then inserts "a"
again, the JSON backend reports success twice and ends holding the second
record, while the relational backend rejects the second insert with the
duplicate-name failure and keeps the first record. -/
theorem c2_contraejemplo :
    (jsonCorre [] [Op.inserta "a" 1 1 "g" 0, Op.inserta "a" 2 3 "g" 1]).2 ≠
      (dbCorre [] [Op.inserta "a" 1 1 "g" 0, Op.inserta "a" 2 3 "g" 1]).2 ∧
    (busca (jsonCorre []
        [Op.inserta "a" 1 1 "g" 0, Op.inserta "a" 2 3 "g" 1]).1 "a").map vistaJson ≠
      (busca (dbCorre []
        [Op.inserta "a" 1 1 "g" 0, Op.inserta "a" 2 3 "g" 1]).1 "a").map vistaDb := by
  exact ⟨by decide, by decide⟩

/-- Claim C2, amended: along every request sequence from the empty store in
which no insert reuses a name still present, the two backends report the
same outcome for every request and afterwards store the same record content
(quantity, initial quantity, price, category) under every name.  They still
diverge on duplicate-name inserts (overwrite versus DuplicateName), on the
ordering of list and lowStock, on totalValue rounding and on the
fecha_actualizacion column, which the JSON document does not maintain. -/
theorem c2_equivalencia_enmendada (ops : List Op)
    (h : sinDuplicados [] ops = true) :
    (jsonCorre [] ops).2 = (dbCorre [] ops).2 ∧
      ∀ n, (busca (jsonCorre [] ops).1 n).map vistaJson =
        (busca (dbCorre [] ops).1 n).map vistaDb :=
  correCorresponde ops [] [] (fun _ => rfl) h

/-- Claim C2, witness: the insert-update-delete sequence of the spec's
scenario is duplicate-free and produces identical outcome lists in the two
backends. -/
theorem c2_testigo :
    sinDuplicados [] [Op.inserta "Rice" 100 (12/10) "Granos" 0,
        Op.actualiza "Rice" 8 1, Op.borra "Rice"] = true ∧
      (jsonCorre [] [Op.inserta "Rice" 100 (12/10) "Granos" 0,
        Op.actualiza "Rice" 8 1, Op.borra "Rice"]).2 =
      (dbCorre [] [Op.inserta "Rice" 100 (12/10) "Granos" 0,
        Op.actualiza "Rice" 8 1, Op.borra "Rice"]).2 :=
  ⟨by decide, (c2_equivalencia_enmendada _ (by decide)).1⟩

/-- Claim C3, counterexample: inserting a name already present does not fail
in the JSON backend: on a store holding "a", the insert flow reports success
and the stored record for "a" changes to the new one. -/
theorem c3_contraejemplo :
    (json_insertar [("a", ⟨1, 1, 2, "g", 0⟩)] "a" 5 7 "h" 3).2 = Resultado.exito ∧
    busca (json_insertar [("a", ⟨1, 1, 2, "g", 0⟩)] "a" 5 7 "h" 3).1 "a" =
      some ⟨5, 5, 7, "h", 3⟩ ∧
    some (⟨5, 5, 7, "h", 3⟩ : ProductoJson) ≠ some (⟨1, 1, 2, "g", 0⟩ : ProductoJson) := by
  exact ⟨by decide, by decide, by decide⟩

/-- Claim C3, amended: the relational backend rejects an insert whose name
is already present with the duplicate-name failure and leaves the whole
store (every field of every record, timestamps included) unmodified; the
JSON backend instead reports success and overwrites the record stored under
that name with the fresh one. -/
theorem c3_duplicado_enmendado :
    (∀ (st : Tabla) (n : String) (c p : Rat) (cat : String) (t : Nat),
        (busca st n).isSome = true →
        db_insertar st n c p cat t = (st, Resultado.duplicado)) ∧
    (∀ (st : InventarioJson) (n : String) (c p : Rat) (cat : String) (t : Nat),
        (json_insertar st n c p cat t).2 = Resultado.exito ∧
        busca (json_insertar st n c p cat t).1 n = some ⟨c, c, p, cat, t⟩) := by
  constructor
  · intro st n c p cat t h
    unfold db_insertar
    cases hb : busca st n with
    | none => rw [hb] at h; simp at h
    | some x => rfl
  · intro st n c p cat t
    exact ⟨rfl, by simp [json_insertar, busca_dictSet]⟩

/-- Claim C3, witness: on a concrete table holding "a", a second insert of
"a" fails with the duplicate outcome and the table is returned unchanged. -/
theorem c3_testigo :
    db_insertar [("a", ⟨1, 1, 2, "g", 0, 0⟩)] "a" 9 9 "x" 5 =
      ([("a", ⟨1, 1, 2, "g", 0, 0⟩)], Resultado.duplicado) :=
  c3_duplicado_enmendado.1 [("a", ⟨1, 1, 2, "g", 0, 0⟩)] "a" 9 9 "x" 5 (by decide)

/-- Claim C4, counterexample: the Database class performs no negativity
validation: updating "a" (quantity 10) with quantity -5 succeeds and
persists the negative quantity, where the claim demands an InvalidValue
failure with the record unchanged. -/
theorem c4_contraejemplo :
    (db_actualizar [("a", ⟨10, 10, 2, "g", 0, 0⟩)] "a" (some (-5)) none 1).2 =
      Resultado.exito ∧
    busca (db_actualizar [("a", ⟨10, 10, 2, "g", 0, 0⟩)] "a" (some (-5)) none 1).1 "a" =
      some ⟨-5, 10, 2, "g", 0, 1⟩ ∧
    some (⟨-5, 10, 2, "g", 0, 1⟩ : ProductoDb) ≠ some (⟨10, 10, 2, "g", 0, 0⟩ : ProductoDb) := by
  exact ⟨by decide, by decide, by decide⟩

/-- Claim C4, amended: negative values are rejected at the conversation
layer, not by the store: the quantity and price step handlers of bot.py
re-prompt on a negative parsed value, staying in their state with both the
draft and the persisted inventory untouched, while the Database class
accepts a negative quantity and persists it. -/
theorem c4_validacion_enmendada :
    (∀ (texto : String) (k : Int) (datos : Borrador) (inv : InventarioJson),
        pyInt texto = some k → k < 0 →
        insertar_cantidad texto datos inv =
          ⟨Estado.insertarCantidad, datos, inv, [Mensaje.errNumero]⟩) ∧
    (∀ (texto : String) (v : Rat) (datos : Borrador) (inv : InventarioJson),
        pyFloat texto = some v → v < 0 →
        insertar_precio texto datos inv =
          ⟨Estado.insertarPrecio, datos, inv, [Mensaje.errPrecio]⟩) ∧
    (∀ (texto n : String) (k : Int) (datos : Borrador) (inv : InventarioJson),
        pyInt texto = some k → k < 0 →
        actualizar_cantidad texto n datos inv =
          ⟨Estado.actualizarCantidad, datos, inv, [Mensaje.errNumero]⟩) ∧
    (∀ (st : Tabla) (n : String) (r : ProductoDb) (c : Rat) (t : Nat),
        busca st n = some r →
        (db_actualizar st n (some c) none t).2 = Resultado.exito ∧
        busca (db_actualizar st n (some c) none t).1 n =
          some { r with cantidad := c, fecha_actualizacion := t }) := by
  refine ⟨?_, ?_, ?_, ?_⟩
  · intro texto k datos inv hp hneg
    unfold insertar_cantidad
    rw [hp]
    simp [hneg]
  · intro texto v datos inv hp hneg
    unfold insertar_precio
    rw [hp]
    simp [hneg]
  · intro texto n k datos inv hp hneg
    unfold actualizar_cantidad
    rw [hp]
    simp [hneg]
  · intro st n r c t hb
    unfold db_actualizar
    rw [hb]
    refine ⟨rfl, ?_⟩
    rw [busca_tablaUpdate, if_pos rfl, hb]
    rfl

/-- Claim C4, witness: the text "-5" parses to the negative integer -5, the
quantity step re-prompts on it without touching the store, and the
relational update with -5 nevertheless succeeds. -/
theorem c4_testigo :
    pyInt "-5" = some (-5) ∧
    insertar_cantidad "-5" borradorVacio [] =
      ⟨Estado.insertarCantidad, borradorVacio, [], [Mensaje.errNumero]⟩ ∧
    (db_actualizar [("a", ⟨10, 10, 2, "g", 0, 0⟩)] "a" (some (-5)) none 1).2 =
      Resultado.exito :=
  ⟨by decide,
   c4_validacion_enmendada.1 "-5" (-5) borradorVacio [] (by decide) (by decide),
   (c4_validacion_enmendada.2.2.2 [("a", ⟨10, 10, 2, "g", 0, 0⟩)] "a"
      ⟨10, 10, 2, "g", 0, 0⟩ (-5) 1 (by decide)).1⟩

/-- Claim C5 (confirmed): initialQuantity is set at creation equal to the
creation-time quantity in both backends, and no sequence of updates changes
the (name, initialQuantity) column of either store. -/
theorem c5_inicial_inmutable :
    (∀ (st : InventarioJson) (n : String) (c p : Rat) (cat : String) (t : Nat),
        busca (json_insertar st n c p cat t).1 n = some ⟨c, c, p, cat, t⟩) ∧
    (∀ (st : Tabla) (n : String) (c p : Rat) (cat : String) (t : Nat),
        busca st n = none →
        busca (db_insertar st n c p cat t).1 n = some ⟨c, c, p, cat, t, t⟩) ∧
    (∀ (st : InventarioJson) (us : List (String × Rat)),
        inicialJson (json_actualizaLista st us) = inicialJson st) ∧
    (∀ (st : Tabla) (us : List (String × Option Rat × Option Rat × Nat)),
        inicialDb (db_actualizaLista st us) = inicialDb st) := by
  refine ⟨?_, ?_, ?_, ?_⟩
  · intro st n c p cat t
    simp [json_insertar, busca_dictSet]
  · intro st n c p cat t h
    unfold db_insertar
    rw [h, busca_append, h]
    simp
  · exact fun st us => inicialJson_actualizaLista us st
  · exact fun st us => inicialDb_actualizaLista us st

/-- Claim C5, witness: inserting "Rice" with quantity 100 into the empty
table stores cantidad_inicial 100 alongside cantidad 100. -/
theorem c5_testigo :
    busca ([] : Tabla) "Rice" = none ∧
    busca (db_insertar [] "Rice" 100 (12/10) "Granos" 0).1 "Rice" =
      some ⟨100, 100, 12/10, "Granos", 0, 0⟩ :=
  ⟨rfl, c5_inicial_inmutable.2.1 [] "Rice" 100 (12/10) "Granos" 0 rfl⟩

/-- Claim C6, counterexample: bot.py's calcular_inventario_total returns the
raw sum with no rounding: on a store holding one unit priced 0.004 the
function returns 1/250, while the 2-decimal rounding of the sum is 0, so
totalValue() does not equal the sum rounded to 2 decimal places. -/
theorem c6_contraejemplo :
    calcular_inventario_total [("x", ⟨1, 1, 1/250, "g", 0⟩)] = 1/250 ∧
    redondeo2 (calcular_inventario_total [("x", ⟨1, 1, 1/250, "g", 0⟩)]) = 0 ∧
    calcular_inventario_total [("x", ⟨1, 1, 1/250, "g", 0⟩)] ≠
      redondeo2 (calcular_inventario_total [("x", ⟨1, 1, 1/250, "g", 0⟩)]) := by
  exact ⟨by decide, by decide, by decide⟩

/-- Claim C6, amended: the relational total is the sum of quantity times
price rounded to 2 decimal places, the JSON total is the same sum with no
rounding (it is rounded only in the displayed text); for both, the empty
store totals 0 and inserting a product with quantity 3 and price 2.50 at a
fresh name increases the total by exactly 7.50. -/
theorem c6_total_enmendado :
    (∀ st : Tabla, (calcular_costo_total st).1 =
        redondeo2 ((st.map (fun p => p.2.cantidad * p.2.precio)).sum)) ∧
    calcular_costo_total [] = (0, 0) ∧
    (∀ (st : Tabla) (n cat : String) (t : Nat), busca st n = none →
        (calcular_costo_total (db_insertar st n 3 (5/2) cat t).1).1 =
          (calcular_costo_total st).1 + 15/2) ∧
    (∀ st : InventarioJson, calcular_inventario_total st =
        (st.map (fun p => p.2.precio * p.2.cantidad)).sum) ∧
    calcular_inventario_total [] = 0 ∧
    (∀ (st : InventarioJson) (n cat : String) (t : Nat), busca st n = none →
        calcular_inventario_total (json_insertar st n 3 (5/2) cat t).1 =
          calcular_inventario_total st + 15/2) := by
  refine ⟨fun st => rfl, by decide, ?_, fun st => rfl, rfl, ?_⟩
  · intro st n cat t h
    have hins : (db_insertar st n 3 (5/2) cat t).1 =
        st ++ [(n, ⟨3, 3, 5/2, cat, t, t⟩)] := by
      unfold db_insertar
      rw [h]
    rw [hins]
    unfold calcular_costo_total
    rw [List.map_append, List.sum_append]
    have h15 : (([(n, (⟨3, 3, 5/2, cat, t, t⟩ : ProductoDb))]).map
        (fun p => p.2.cantidad * p.2.precio)).sum = 15/2 := by
      simp
      norm_num
    rw [h15]
    exact redondeo2_add_siete_cincuenta _
  · intro st n cat t h
    have hins : (json_insertar st n 3 (5/2) cat t).1 =
        st ++ [(n, ⟨3, 3, 5/2, cat, t⟩)] := by
      unfold json_insertar
      exact dictSet_ausente st n _ h
    rw [hins]
    unfold calcular_inventario_total
    rw [List.map_append, List.sum_append]
    have h15 : (([(n, (⟨3, 3, 5/2, cat, t⟩ : ProductoJson))]).map
        (fun p => p.2.precio * p.2.cantidad)).sum = 15/2 := by
      simp
      norm_num
    rw [h15]

/-- Claim C6, witness: inserting quantity 3 at price 2.50 into the empty
table raises the rounded total by exactly 7.50. -/
theorem c6_testigo :
    busca ([] : Tabla) "x" = none ∧
    (calcular_costo_total (db_insertar [] "x" 3 (5/2) "g" 0).1).1 =
      (calcular_costo_total ([] : Tabla)).1 + 15/2 :=
  ⟨rfl, c6_total_enmendado.2.2.1 [] "x" "g" 0 rfl⟩

/-- Claim C7, counterexample: bot.py's inventory display walks the
dictionary in insertion order, not sorted by name: a store that inserted "b"
before "a" is listed as ["b", "a"], which is not ascending since "b" is not
at most "a". -/
theorem c7_contraejemplo :
    (json_listar [("b", ⟨1, 1, 1, "g", 0⟩), ("a", ⟨2, 2, 1, "g", 0⟩)]).map Prod.fst =
      ["b", "a"] ∧
    ¬ (("b" : String) ≤ "a") := by
  refine ⟨by decide, ?_⟩
  rw [String.le_iff_toList_le]
  decide

/-- Claim C7, amended: the relational listar_productos returns every product
sorted by name ascending and yields the empty sequence without error on the
empty table; the JSON backend's listing instead presents all products in
store (insertion) order. -/
theorem c7_listar_enmendado :
    (∀ st : Tabla, List.Sorted (fun a b : ProductoVista => a.nombre ≤ b.nombre)
        (listar_productos st)) ∧
    (∀ st : Tabla, (listar_productos st).Perm (st.map vistaFila)) ∧
    listar_productos [] = [] ∧
    (∀ st : InventarioJson, json_listar st = st) := by
  refine ⟨?_, ?_, rfl, fun st => rfl⟩
  · intro st
    exact List.Pairwise.map vistaFila (fun a b h => h)
      (List.sorted_insertionSort nombreLe st)
  · intro st
    exact List.Perm.map vistaFila (List.perm_insertionSort nombreLe st)

/-- Claim C8, counterexample: "3.5" is parseable as a non-negative number
(float() accepts it, value 3.5), yet the quantity step parses with int(),
rejects it, and stays in the AwaitQuantity state instead of advancing to
AwaitPrice. -/
theorem c8_contraejemplo :
    pyFloat "3.5" = some (7/2) ∧ ((0:Rat) ≤ 7/2) ∧
    insertar_cantidad "3.5" borradorVacio [] =
      ⟨Estado.insertarCantidad, borradorVacio, [], [Mensaje.errNumero]⟩ ∧
    Estado.insertarCantidad ≠ Estado.insertarPrecio := by
  exact ⟨by decide, by decide, by decide, by decide⟩

/-- Claim C8, amended: in the AwaitQuantity step, input parseable by int()
as a non-negative integer stores the draft quantity (and initial quantity)
and advances to AwaitPrice; input that int() rejects — including non-integer
numerals such as "3.5" — or that parses negative leaves the session in
AwaitQuantity with the re-prompt reply, and the persisted store is untouched
so no Product is created. -/
theorem c8_cantidad_enmendada :
    (∀ (texto : String) (k : Int) (datos : Borrador) (inv : InventarioJson),
        pyInt texto = some k → 0 ≤ k →
        insertar_cantidad texto datos inv =
          ⟨Estado.insertarPrecio,
            { datos with cantidad := some k, cantidad_inicial := some k }, inv,
            [Mensaje.pidePrecio]⟩) ∧
    (∀ (texto : String) (datos : Borrador) (inv : InventarioJson),
        pyInt texto = none →
        insertar_cantidad texto datos inv =
          ⟨Estado.insertarCantidad, datos, inv, [Mensaje.errNumero]⟩) ∧
    (∀ (texto : String) (k : Int) (datos : Borrador) (inv : InventarioJson),
        pyInt texto = some k → k < 0 →
        insertar_cantidad texto datos inv =
          ⟨Estado.insertarCantidad, datos, inv, [Mensaje.errNumero]⟩) := by
  refine ⟨?_, ?_, ?_⟩
  · intro texto k datos inv hp hk
    unfold insertar_cantidad
    rw [hp]
    simp [not_lt.mpr hk]
  · intro texto datos inv hp
    unfold insertar_cantidad
    rw [hp]
  · intro texto k datos inv hp hneg
    unfold insertar_cantidad
    rw [hp]
    simp [hneg]

/-- Claim C8, witness: "7" advances the session to AwaitPrice with draft
quantity 7, while "abc" fails to parse and re-prompts in AwaitQuantity. -/
theorem c8_testigo :
    pyInt "7" = some 7 ∧
    insertar_cantidad "7" borradorVacio [] =
      ⟨Estado.insertarPrecio,
        { borradorVacio with cantidad := some 7, cantidad_inicial := some 7 }, [],
        [Mensaje.pidePrecio]⟩ ∧
    pyInt "abc" = none ∧
    insertar_cantidad "abc" borradorVacio [] =
      ⟨Estado.insertarCantidad, borradorVacio, [], [Mensaje.errNumero]⟩ :=
  ⟨by decide, c8_cantidad_enmendada.1 "7" 7 borradorVacio [] (by decide) (by decide),
   by decide, c8_cantidad_enmendada.2.1 "abc" borradorVacio [] (by decide)⟩

/-- Claim C9 (confirmed): from every non-Menu conversation state the
/cancelar fallback returns the session to Menu, clears the accumulated
draft, emits the cancellation acknowledgment (before re-entering the menu),
and passes the persisted inventory through unchanged. -/
theorem c9_cancelar_menu (e : Estado) (datos : Borrador) (inv : InventarioJson)
    (h : e ≠ Estado.menu) :
    cancelar e datos inv =
      ⟨Estado.menu, borradorVacio, inv, [Mensaje.canceladoAck, Mensaje.menuInicio]⟩ :=
  rfl

/-- Claim C9, witness: cancelling from the AwaitPrice state with a partial
draft and a non-empty store returns to Menu with the draft cleared and the
store identical. -/
theorem c9_testigo :
    (Estado.insertarPrecio ≠ Estado.menu) ∧
    cancelar Estado.insertarPrecio ⟨some "Pan", some 3, some 3, none, none⟩
        [("Pan", ⟨1, 1, 1, "g", 0⟩)] =
      ⟨Estado.menu, borradorVacio, [("Pan", ⟨1, 1, 1, "g", 0⟩)],
        [Mensaje.canceladoAck, Mensaje.menuInicio]⟩ :=
  ⟨by decide,
   c9_cancelar_menu Estado.insertarPrecio ⟨some "Pan", some 3, some 3, none, none⟩
     [("Pan", ⟨1, 1, 1, "g", 0⟩)] (by decide)⟩

/-- Claim C10 (confirmed): loading the JSON inventory with the backing file
absent or holding invalid JSON yields the empty mapping rather than an
error, and on that empty store the total is 0, the low-stock report is
empty and the listing is empty — every query succeeds and reports an empty
store. -/
theorem c10_carga_robusta :
    cargar_inventario Archivo.ausente = [] ∧
    cargar_inventario Archivo.invalido = [] ∧
    calcular_inventario_total (cargar_inventario Archivo.ausente) = 0 ∧
    obtener_productos_bajo_stock (cargar_inventario Archivo.ausente) = [] ∧
    json_listar (cargar_inventario Archivo.invalido) = [] :=
  ⟨rfl, rfl, rfl, rfl, rfl⟩
